import Mathlib

/-!
Verification development for the HMR server and WebSocket proxy of this
repository.  The embedding follows the two source files:

* `local-cli/server/util/webSocketProxy.js` — the two-role connection
  broker (`attachToServer`): role negotiation, single occupancy per role,
  bidirectional forwarding, and the synthesized disconnect notification.
* `local-cli/server/util/attachHMRServer.js` — the HMR file-change
  listener installed by `attachHMRServer`: the shallow/structural
  classification of a change, the ordered module list of a structural
  update, the update-channel message protocol, the error taxonomy and the
  host sanitization.

Sockets are identified by natural numbers; the mutable globals of the
broker (`debuggerSocket`, `clientSocket`, and the handler assignments on
each socket object) become an explicit `BrokerState`.  The per-connection
HMR session (`client` in the source) becomes a `Session` record; the
collaborator packager is an environment record (`CycleEnv`) supplying the
results of each collaborator call of one change cycle, and the change
cycle itself is the function `changeCycle` whose result carries the list
of messages sent, the final session, the collaborator requests issued and
the ordered module list of the produced resolution response.
-/

/-! ## Connection broker (`webSocketProxy.js`) -/

/-- Effectful socket operations observable from the broker: closing a
socket with a code and a reason, and sending a data frame. -/
inductive WSAction where
  | close (sid : Nat) (code : Nat) (reason : String)
  | send (sid : Nat) (data : String)
deriving DecidableEq

/-- Is this action a `send`?  (`close` frames are connection teardown,
not message delivery.) -/
def WSAction.isSend : WSAction → Bool
  | .send _ _ => true
  | _ => false

/-- The broker globals of `attachToServer`: the current occupant of each
role, plus the sockets whose role handlers (`onmessage`/`onerror`/
`onclose`) are currently assigned (a superseded client has its handlers
nulled, so it leaves `clientHandlers`; debugger handlers are never
nulled by the source). -/
structure BrokerState where
  debuggerSocket : Option Nat
  clientSocket : Option Nat
  debuggerHandlers : List Nat
  clientHandlers : List Nat
deriving DecidableEq

/-- The synthesized notification forwarded to the debugger when the
client disconnects (`JSON.stringify({method: "$disconnected"})`). -/
def disconnectedMessage : String := "\x7b\"method\":\"$disconnected\"\x7d"

/-- `send(dest, message)` of the source: a no-op when the destination is
absent. -/
def sendTo (dest : Option Nat) (data : String) : List WSAction :=
  match dest with
  | none => []
  | some d => [WSAction.send d data]

/-- The connection-time role parameter. -/
inductive Role where
  | debuggerRole
  | clientRole
  | missingRole
deriving DecidableEq

/-- `needle` occurs as a contiguous substring of the haystack
(JS `indexOf(needle) > -1`). -/
def hasSubstring (needle : List Char) : List Char → Bool
  | [] => needle.isEmpty
  | c :: rest => needle.isPrefixOf (c :: rest) || hasSubstring needle rest

/-- Role detection of `attachToServer`: `url.indexOf('role=debugger') > -1`
is checked before `url.indexOf('role=client') > -1`. -/
def roleOf (url : String) : Role :=
  if hasSubstring "role=debugger".data url.data then Role.debuggerRole
  else if hasSubstring "role=client".data url.data then Role.clientRole
  else Role.missingRole

/-- The `connection` handler of `attachToServer` for a new socket `sid`
arriving at `url`: returns the new broker state and the socket actions
performed. -/
def brokerConnect (s : BrokerState) (sid : Nat) (url : String) :
    BrokerState × List WSAction :=
  match roleOf url with
  | Role.debuggerRole =>
    match s.debuggerSocket with
    | some _ => (s, [WSAction.close sid 1011 "Another debugger is already connected"])
    | none =>
      ({ s with debuggerSocket := some sid,
                debuggerHandlers := sid :: s.debuggerHandlers }, [])
  | Role.clientRole =>
    match s.clientSocket with
    | some c =>
      ({ s with clientSocket := some sid,
                clientHandlers := sid :: s.clientHandlers.filter (fun x => x ≠ c) },
       [WSAction.close c 1011 "Another client connected"])
    | none =>
      ({ s with clientSocket := some sid,
                clientHandlers := sid :: s.clientHandlers }, [])
  | Role.missingRole => (s, [WSAction.close sid 1011 "Missing role param"])

/-- A close (or error) event firing on socket `sid`: the handler runs only
if it is still assigned on that socket.  The debugger handler clears the
debugger slot and closes the client if present; the client handler clears
the client slot and forwards the synthesized disconnect notification to
the debugger, if any. -/
def brokerSocketClosed (s : BrokerState) (sid : Nat) :
    BrokerState × List WSAction :=
  if sid ∈ s.debuggerHandlers then
    ({ s with debuggerSocket := none },
     match s.clientSocket with
     | some c => [WSAction.close c 1011 "Debugger was disconnected"]
     | none => [])
  else if sid ∈ s.clientHandlers then
    ({ s with clientSocket := none }, sendTo s.debuggerSocket disconnectedMessage)
  else (s, [])

/-- A message event with payload `data` firing on socket `sid`: forwarded
verbatim to the peer role, only if the handler is still assigned. -/
def brokerSocketMessage (s : BrokerState) (sid : Nat) (data : String) :
    BrokerState × List WSAction :=
  if sid ∈ s.debuggerHandlers then (s, sendTo s.clientSocket data)
  else if sid ∈ s.clientHandlers then (s, sendTo s.debuggerSocket data)
  else (s, [])

/-- The query operation exposed by the broker. -/
def isChromeConnected (s : BrokerState) : Bool :=
  s.debuggerSocket.isSome

/-! ## HMR server (`attachHMRServer.js`): data model -/

/-- The inverse-dependency map (`inverseDependenciesCache`), kept opaque
as an association from file path to dependent paths. -/
abbrev InvDeps := List (String × List String)

/-- The snapshot produced by the local `getDependencies` helper of
`attachHMRServer` (the Dependency Snapshot Builder).  Module handles are
opaque and represented by natural numbers; association lists keep the
insertion order of the source objects, which is the order the resolver
yielded the dependencies. -/
structure DepSnapshot where
  dependenciesCache : List String
  dependenciesModulesCache : List (String × Nat)
  shallowDependencies : List (String × List String)
  inverseDependenciesCache : InvDeps
deriving DecidableEq

/-- The per-connection session (`client` in the source):  the connection
parameters and the cached snapshot fields. -/
structure Session where
  platform : String
  bundleEntry : String
  dependenciesCache : List String
  dependenciesModulesCache : List (String × Nat)
  shallowDependencies : List (String × List String)
  inverseDependenciesCache : InvDeps
deriving DecidableEq

/-- Session creation on connect (source lines 108–122): the `client`
record built from the initial snapshot, paired with the closure variable
`inverseDependenciesCache` captured by the listener at that moment. -/
def connectSession (platform bundleEntry : String) (snap : DepSnapshot) :
    Session × InvDeps :=
  ({ platform := platform, bundleEntry := bundleEntry,
     dependenciesCache := snap.dependenciesCache,
     dependenciesModulesCache := snap.dependenciesModulesCache,
     shallowDependencies := snap.shallowDependencies,
     inverseDependenciesCache := snap.inverseDependenciesCache },
   snap.inverseDependenciesCache)

/-- An error surfaced by the collaborator pipeline.  The source reads
`error.type`, `error.description`, `error.filename` and
`error.lineNumber`. -/
structure JSError where
  etype : String
  description : String
  filename : String
  lineNumber : Nat
deriving DecidableEq

/-- Body of an `error` message sent to the client; `filename` and
`lineNumber` are absent for internal errors. -/
structure ErrorBody where
  etype : String
  description : String
  filename : Option String
  lineNumber : Option Nat
deriving DecidableEq

/-- The bundle produced by `buildBundleForHMR`, with the accessors the
listener uses. -/
structure HMRBundle where
  isEmpty : Bool
  modulesNamesAndCode : List (String × String)
  sourceURLs : List String
  sourceMappingURLs : List String
deriving DecidableEq

/-- The JSON text frames of the update channel, as structured values. -/
inductive HMRMessage where
  | updateStart
  | update (modules : List (String × String)) (inverseDependencies : InvDeps)
      (sourceURLs : List String) (sourceMappingURLs : List String)
  | errorMsg (body : ErrorBody)
  | updateDone
deriving DecidableEq

/-- Is this message one of the optional middle messages of a cycle? -/
def HMRMessage.isUpdateOrError : HMRMessage → Bool
  | .update _ _ _ _ => true
  | .errorMsg _ => true
  | _ => false

/-- Collaborator requests issued by one change cycle.  `rebuild` marks an
invocation of the local `getDependencies` helper (full snapshot rebuild
for the session entry); `getDeps` is a direct
`packagerServer.getDependencies` call with its options. -/
inductive Request where
  | shallowDeps (path : String)
  | getDeps (platform : String) (dev : Bool) (entryFile : String) (recursive : Bool)
  | rebuild (platform : String) (bundleEntry : String)
  | moduleForPath (path : String)
  | buildBundle (entryFile : String) (platform : String) (host : String) (port : Nat)
deriving DecidableEq

/-- Outcome of the bundle-building stage of a cycle: a rejection of the
collaborator pipeline (routed to the catch handler) or a bundle
(`none` models a falsy bundle value). -/
inductive BundleOutcome where
  | failed (e : JSError)
  | built (bundle : Option HMRBundle)
deriving DecidableEq

/-- The environment of one change cycle: the results of each collaborator
call, the HTTP server address, and the liveness of the `client` global at
each of the guard points of the promise chain.  For a single connection
liveness is monotone (once `disconnect` ran the client stays null);
the flags are kept independent so each guard of the source has its own.

* `aliveA` — listener entry (line 125)
* `aliveB` — after fetching the shallow dependencies (line 133)
* `aliveC` — after the structural rebuild (line 167)
* `aliveD` — when the resolution response arrives (line 199)
* `aliveE` — when the bundle arrives (line 224)
* `aliveF` — before sending the update or error frame (line 257)
* `aliveG` — at the final `update-done` send (line 267)
-/
structure CycleEnv where
  aliveA : Bool
  aliveB : Bool
  aliveC : Bool
  aliveD : Bool
  aliveE : Bool
  aliveF : Bool
  aliveG : Bool
  deleted : Bool
  freshDeps : List String
  moduleForPath : Nat
  rebuilt : DepSnapshot
  address : Option String
  port : Nat
  bundleResult : BundleOutcome
deriving DecidableEq

/-- The observable outcome of one change cycle. -/
structure CycleResult where
  messages : List HMRMessage
  finalSession : Session
  requests : List Request
  batch : Option (List Nat)
deriving DecidableEq

/-! ## HMR server: the change cycle -/

/-- `arrayEquals` of the source: both arguments default to the empty
array when null or undefined, then equal length and pairwise `===` of
elements is required. -/
def arrayEquals (arrayA arrayB : Option (List String)) : Bool :=
  let a := arrayA.getD []
  let b := arrayB.getD []
  (a.length == b.length) && (a.zip b).all fun p => p.1 == p.2

/-- The equivalence test of the listener (line 141):
`arrayEquals(deps, client.shallowDependencies[filename])`, where a
missing cache entry is `undefined`. -/
def isShallowEquivalentChange (sess : Session) (filename : String)
    (fresh : List String) : Bool :=
  arrayEquals (some fresh) (List.lookup filename sess.shallowDependencies)

/-- The modules of the new module index absent from the old one, in the
order of the new index (lines 173–177): `Object.keys` iteration order is
insertion order, which is the order the resolver yielded the
dependencies. -/
def newlyDiscoveredModules (oldCache newCache : List (String × Nat)) : List Nat :=
  (newCache.filter fun p => (List.lookup p.1 oldCache).isNone).map Prod.snd

/-- Cache invalidation of the structural path (lines 190–192): replaces
the dependency list, module index and shallow-dependency caches; the
`inverseDependenciesCache` field is not touched. -/
def structuralInvalidate (sess : Session) (snap : DepSnapshot) : Session :=
  { sess with dependenciesCache := snap.dependenciesCache,
              dependenciesModulesCache := snap.dependenciesModulesCache,
              shallowDependencies := snap.shallowDependencies }

/-- Host sanitization (lines 210–214): `packagerHost` starts as
`'localhost'` and becomes the listening address only when that address is
truthy (the first disjunct `a != ""` is JS truthiness of a string),
differs from `'::'` and differs from `''`. -/
def sanitizeHost (address : Option String) : String :=
  match address with
  | none => "localhost"
  | some a => if a != "" && a != "::" && a != "" then a else "localhost"

/-- Fixed description of an internal error (line 251). -/
def internalErrorDescription : String :=
  "react-packager has encountered an internal error, please check your terminal error output for more details"

/-- The catch handler of the cycle (lines 237–255): recognized error
types pass `description`, `filename` and `lineNumber` through verbatim;
everything else becomes an `InternalError` with the fixed description
(the original detail is only logged server-side). -/
def errorBody (e : JSError) : ErrorBody :=
  if e.etype == "TransformError" || e.etype == "NotFoundError"
      || e.etype == "UnableToResolveError" then
    { etype := e.etype, description := e.description,
      filename := some e.filename, lineNumber := some e.lineNumber }
  else
    { etype := "InternalError", description := internalErrorDescription,
      filename := none, lineNumber := none }

/-- The frames of a cycle that got past the entry guard: `update-start`,
then the optional middle frames, then `update-done` when the client still
exists at that send (line 267). -/
def cycleMessages (env : CycleEnv) (mid : List HMRMessage) : List HMRMessage :=
  HMRMessage.updateStart ::
    (mid ++ (if env.aliveG = true then [HMRMessage.updateDone] else []))

/-- Middle frames of the tail of the chain (lines 198–263): nothing when
the client is gone or the changed file is no longer part of the bundle;
otherwise the error frame from the catch handler on a rejection, or the
update frame when a non-empty bundle was built, each sent only when the
client still exists at the send. -/
def finishMiddle (sessAfter : Session) (connectInv : InvDeps)
    (filename : String) (env : CycleEnv) : List HMRMessage :=
  if env.aliveD = false then []
  else if (List.lookup filename sessAfter.shallowDependencies).isNone then []
  else
    match env.bundleResult with
    | BundleOutcome.failed e =>
      if env.aliveF = true then [HMRMessage.errorMsg (errorBody e)] else []
    | BundleOutcome.built none => []
    | BundleOutcome.built (some b) =>
      if env.aliveE = false || b.isEmpty then []
      else if env.aliveF = true then
        [HMRMessage.update b.modulesNamesAndCode connectInv
          b.sourceURLs b.sourceMappingURLs]
      else []

/-- The bundle request of the tail of the chain (lines 218–222), issued
only when the client exists and the changed file is still tracked, with
the sanitized host and the server port. -/
def finishRequests (sessAfter : Session) (filename : String)
    (env : CycleEnv) : List Request :=
  if env.aliveD = false then []
  else if (List.lookup filename sessAfter.shallowDependencies).isNone then []
  else [Request.buildBundle sessAfter.bundleEntry sessAfter.platform
          (sanitizeHost env.address) env.port]

/-- The tail of the promise chain shared by both paths. -/
def finishCycle (sessAfter : Session) (connectInv : InvDeps)
    (filename : String) (env : CycleEnv) (reqs : List Request)
    (batch : Option (List Nat)) : CycleResult :=
  { messages := cycleMessages env (finishMiddle sessAfter connectInv filename env),
    finalSession := sessAfter,
    requests := reqs ++ finishRequests sessAfter filename env,
    batch := batch }

/-- One run of the file-change listener (lines 124–268) for `filename`,
with session `sess` and the connect-time closure variable `connectInv`.
`batch` is the `dependencies` list of the resolution response handed to
the bundler (`response.copy({dependencies: ...})`), i.e. the ordered
module list of the update batch. -/
def changeCycle (sess : Session) (connectInv : InvDeps) (filename : String)
    (env : CycleEnv) : CycleResult :=
  if env.aliveA = false then
    { messages := [], finalSession := sess, requests := [], batch := none }
  else if env.deleted = true then
    { messages := cycleMessages env [], finalSession := sess,
      requests := [], batch := none }
  else if env.aliveB = false then
    { messages := cycleMessages env [], finalSession := sess,
      requests := [Request.shallowDeps filename], batch := none }
  else if isShallowEquivalentChange sess filename env.freshDeps = true then
    finishCycle sess connectInv filename env
      [Request.shallowDeps filename,
       Request.getDeps sess.platform true filename true,
       Request.moduleForPath filename]
      (some [env.moduleForPath])
  else if env.aliveC = false then
    finishCycle sess connectInv filename env
      [Request.shallowDeps filename,
       Request.rebuild sess.platform sess.bundleEntry]
      none
  else
    finishCycle (structuralInvalidate sess env.rebuilt) connectInv filename env
      [Request.shallowDeps filename,
       Request.rebuild sess.platform sess.bundleEntry,
       Request.moduleForPath filename]
      (some ((env.moduleForPath ::
        newlyDiscoveredModules sess.dependenciesModulesCache
          env.rebuilt.dependenciesModulesCache).reverse))

/-- The middle frames of a message list: everything strictly between the
first frame and the last one. -/
def middleOf (l : List HMRMessage) : List HMRMessage := (l.drop 1).dropLast

/-! ## Helper lemmas -/

/-- Equal length plus pairwise equality of zipped elements is list
equality. -/
theorem lengthZipEq_iff_eq (a : List String) :
    ∀ b : List String,
      (((a.length == b.length) && (a.zip b).all fun p => p.1 == p.2) = true)
        ↔ a = b := by
  induction a with
  | nil =>
    intro b
    cases b <;> simp
  | cons x xs ih =>
    intro b
    cases b with
    | nil => simp
    | cons y ys =>
      simp only [List.zip_cons_cons, List.all_cons, List.length_cons,
        Bool.and_eq_true, beq_iff_eq, Nat.add_right_cancel_iff, List.cons.injEq]
      constructor
      · rintro ⟨hlen, hxy, hall⟩
        exact ⟨hxy, (ih ys).mp (by simp [hlen, hall])⟩
      · rintro ⟨hxy, hrest⟩
        have h := (ih ys).mpr hrest
        simp only [Bool.and_eq_true, beq_iff_eq] at h
        exact ⟨h.1, hxy, h.2⟩

/-- `arrayEquals` decides equality of the two lists after defaulting a
missing one to the empty list. -/
theorem arrayEquals_iff (oa ob : Option (List String)) :
    arrayEquals oa ob = true ↔ oa.getD [] = ob.getD [] := by
  unfold arrayEquals
  exact lengthZipEq_iff_eq _ _

/-- `arrayEquals` is reflexive on present lists. -/
theorem arrayEquals_self (l : List String) :
    arrayEquals (some l) (some l) = true := by
  rw [arrayEquals_iff]

/-- With the client alive at the final send, the middle of a cycle
message list is exactly the supplied middle. -/
theorem middleOf_cycleMessages (env : CycleEnv) (mid : List HMRMessage)
    (hG : env.aliveG = true) :
    middleOf (cycleMessages env mid) = mid := by
  simp [middleOf, cycleMessages, hG]

/-- The middle frames of the chain tail: at most one, and only update or
error frames. -/
theorem finishMiddle_shape (sessAfter : Session) (connectInv : InvDeps)
    (filename : String) (env : CycleEnv) :
    (finishMiddle sessAfter connectInv filename env).length ≤ 1
      ∧ (finishMiddle sessAfter connectInv filename env).all
          HMRMessage.isUpdateOrError = true := by
  unfold finishMiddle
  repeat' split
  all_goals simp [HMRMessage.isUpdateOrError]

/-- The chain tail issues at most the bundle request. -/
theorem finishRequests_sub (sessAfter : Session) (filename : String)
    (env : CycleEnv) (r : Request) (hr : r ∈ finishRequests sessAfter filename env) :
    r = Request.buildBundle sessAfter.bundleEntry sessAfter.platform
          (sanitizeHost env.address) env.port := by
  unfold finishRequests at hr
  repeat' split at hr
  all_goals simp_all

/-- Framing of a completed cycle in terms of its own middle frames. -/
theorem framing_of_mid (env : CycleEnv) (mid : List HMRMessage)
    (hG : env.aliveG = true) (hlen : mid.length ≤ 1)
    (hall : mid.all HMRMessage.isUpdateOrError = true) :
    cycleMessages env mid =
        HMRMessage.updateStart ::
          (middleOf (cycleMessages env mid) ++ [HMRMessage.updateDone])
      ∧ (middleOf (cycleMessages env mid)).length ≤ 1
      ∧ (middleOf (cycleMessages env mid)).all HMRMessage.isUpdateOrError = true := by
  rw [middleOf_cycleMessages env mid hG]
  exact ⟨by simp [cycleMessages, hG], hlen, hall⟩

/-! ## Concrete sample data (used by witnesses and counterexamples) -/

/-- Initial snapshot: entry `/a.js` requires `b`. -/
def snapA : DepSnapshot :=
  { dependenciesCache := ["/a.js", "/b.js"],
    dependenciesModulesCache := [("A", 1), ("B", 2)],
    shallowDependencies := [("/a.js", ["b"]), ("/b.js", [])],
    inverseDependenciesCache := [("/b.js", ["/a.js"])] }

/-- Rebuilt snapshot after `/a.js` additionally requires the new file
`c`. -/
def snapB : DepSnapshot :=
  { dependenciesCache := ["/a.js", "/b.js", "/c.js"],
    dependenciesModulesCache := [("A", 1), ("B", 2), ("C", 3)],
    shallowDependencies := [("/a.js", ["b", "c"]), ("/b.js", []), ("/c.js", [])],
    inverseDependenciesCache := [("/b.js", ["/a.js"]), ("/c.js", ["/a.js"])] }

/-- A non-empty bundle. -/
def bundleA : HMRBundle :=
  { isEmpty := false,
    modulesNamesAndCode := [("A", "codeA")],
    sourceURLs := ["http://localhost:8081/a.js"],
    sourceMappingURLs := ["http://localhost:8081/a.js.map"] }

/-- Session created on connect for platform `ios` and entry `/a.js`. -/
def sessionA : Session := (connectSession "ios" "/a.js" snapA).1

/-- Connect-time inverse-dependency closure variable of that session. -/
def invA : InvDeps := (connectSession "ios" "/a.js" snapA).2

/-- Baseline cycle environment: client alive at every guard, file not
deleted, fresh shallow dependencies unchanged, bundle builds
successfully. -/
def envBase : CycleEnv :=
  { aliveA := true, aliveB := true, aliveC := true, aliveD := true,
    aliveE := true, aliveF := true, aliveG := true, deleted := false,
    freshDeps := ["b"], moduleForPath := 1, rebuilt := snapB,
    address := some "127.0.0.1", port := 8081,
    bundleResult := BundleOutcome.built (some bundleA) }

/-- Structural environment: `/a.js` now requires `b` and `c`. -/
def envC1 : CycleEnv := { envBase with freshDeps := ["b", "c"] }

/-! ## C1: ordering of a structural update batch -/

/-- C1: for a structural change to `filename`, the ordered module list of
the update batch is the reverse of the module handle of `filename`
followed by the newly discovered modules in the order the resolver
yielded them; equivalently the newly discovered modules appear reversed
and the module of the originating file is last. -/
theorem structural_change_module_order (sess : Session) (connectInv : InvDeps)
    (filename : String) (env : CycleEnv)
    (hA : env.aliveA = true) (hdel : env.deleted = false)
    (hB : env.aliveB = true) (hC : env.aliveC = true)
    (hstruct : isShallowEquivalentChange sess filename env.freshDeps = false) :
    (changeCycle sess connectInv filename env).batch =
        some ((env.moduleForPath ::
          newlyDiscoveredModules sess.dependenciesModulesCache
            env.rebuilt.dependenciesModulesCache).reverse)
      ∧ (changeCycle sess connectInv filename env).batch =
        some ((newlyDiscoveredModules sess.dependenciesModulesCache
            env.rebuilt.dependenciesModulesCache).reverse
          ++ [env.moduleForPath]) := by
  unfold changeCycle
  simp [hA, hdel, hB, hC, hstruct, finishCycle]

/-- Witness for C1: editing `/a.js` to also require the new file `c`
yields the batch `[C, A]` — the new module first, the changed file
last. -/
theorem structural_change_module_order_witness :
    isShallowEquivalentChange sessionA "/a.js" ["b", "c"] = false
      ∧ (changeCycle sessionA invA "/a.js" envC1).batch = some [3, 1] := by
  refine ⟨by decide, ?_⟩
  have h := structural_change_module_order sessionA invA "/a.js" envC1
    rfl rfl rfl rfl (by decide)
  exact h.2.trans (by decide)

/-! ## C2: the shallow-equivalence classification -/

/-- Session whose shallow-dependency cache has no entry for `/a.js`. -/
def c2sess : Session :=
  { platform := "ios", bundleEntry := "/b.js",
    dependenciesCache := ["/b.js"],
    dependenciesModulesCache := [("B", 2)],
    shallowDependencies := [("/b.js", [])],
    inverseDependenciesCache := [] }

/-- Environment for the C2 counterexample: freshly fetched shallow
dependencies of `/a.js` are empty. -/
def envC2 : CycleEnv := { envBase with freshDeps := [], moduleForPath := 7 }

/-- C2 counterexample: a change event for `/a.js` with no cached
shallow-dependency entry for it and an empty freshly fetched list is
classified shallow-equivalent by the code — the cycle takes the
single-module path and never rebuilds the snapshot — while the claim
demands that the absence of a cached entry classify the change as
structural. -/
theorem shallow_classification_counterexample :
    List.lookup "/a.js" c2sess.shallowDependencies = none
      ∧ isShallowEquivalentChange c2sess "/a.js" [] = true
      ∧ (changeCycle c2sess [] "/a.js" envC2).batch = some [7]
      ∧ (changeCycle c2sess [] "/a.js" envC2).finalSession = c2sess := by
  decide

/-- C2 (amended): a change is classified shallow-equivalent exactly when
the freshly fetched shallow-dependency list equals the cached one as an
ordered sequence, where a missing cache entry is treated as the empty
list; any other difference classifies the change as structural. -/
theorem shallow_equivalence_classification (sess : Session) (filename : String)
    (fresh : List String) :
    isShallowEquivalentChange sess filename fresh = true ↔
      fresh = (List.lookup filename sess.shallowDependencies).getD [] := by
  unfold isShallowEquivalentChange
  rw [arrayEquals_iff]
  simp

/-! ## C3: the shallow-equivalent path -/

/-- C3: on a shallow-equivalent change the cycle never invokes the full
snapshot rebuild and leaves the session untouched, every direct
re-resolution request it issues is scoped to `filename` (with the
`recursive` option of the source set), and the resolution response it
hands to the bundler contains exactly one module: the handle of
`filename`. -/
theorem shallow_equivalent_minimal_resolution (sess : Session)
    (connectInv : InvDeps) (filename : String) (env : CycleEnv)
    (hA : env.aliveA = true) (hdel : env.deleted = false)
    (hB : env.aliveB = true)
    (hshallow : isShallowEquivalentChange sess filename env.freshDeps = true) :
    (changeCycle sess connectInv filename env).batch = some [env.moduleForPath]
      ∧ (changeCycle sess connectInv filename env).finalSession = sess
      ∧ (∀ p b, Request.rebuild p b ∉
          (changeCycle sess connectInv filename env).requests)
      ∧ Request.getDeps sess.platform true filename true
          ∈ (changeCycle sess connectInv filename env).requests
      ∧ (∀ p d e r, Request.getDeps p d e r
          ∈ (changeCycle sess connectInv filename env).requests → e = filename) := by
  have hreq : (changeCycle sess connectInv filename env).requests =
      [Request.shallowDeps filename,
       Request.getDeps sess.platform true filename true,
       Request.moduleForPath filename] ++ finishRequests sess filename env := by
    unfold changeCycle
    simp [hA, hdel, hB, hshallow, finishCycle]
  refine ⟨?_, ?_, ?_, ?_, ?_⟩
  · unfold changeCycle
    simp [hA, hdel, hB, hshallow, finishCycle]
  · unfold changeCycle
    simp [hA, hdel, hB, hshallow, finishCycle]
  · intro p b hmem
    rw [hreq] at hmem
    rcases List.mem_append.mp hmem with h | h
    · simp at h
    · have hb := finishRequests_sub sess filename env _ h
      simp at hb
  · rw [hreq]
    simp
  · intro p d e r hmem
    rw [hreq] at hmem
    rcases List.mem_append.mp hmem with h | h
    · simp only [List.mem_cons, List.mem_singleton, List.not_mem_nil] at h
      rcases h with h | h | h | h
      · exact absurd h (by simp)
      · have := (Request.getDeps.injEq _ _ _ _ _ _ _ _).mp h
        exact this.2.2.1
      · exact absurd h (by simp)
      · exact h.elim
    · have hb := finishRequests_sub sess filename env _ h
      simp at hb

/-- Witness for C3: an unchanged require list for `/a.js` yields the
single-module batch `[A]`, an unchanged session, and no snapshot
rebuild request. -/
theorem shallow_equivalent_minimal_resolution_witness :
    isShallowEquivalentChange sessionA "/a.js" ["b"] = true
      ∧ (changeCycle sessionA invA "/a.js" envBase).batch = some [1]
      ∧ (changeCycle sessionA invA "/a.js" envBase).finalSession = sessionA
      ∧ Request.rebuild "ios" "/a.js" ∉
          (changeCycle sessionA invA "/a.js" envBase).requests := by
  have h := shallow_equivalent_minimal_resolution sessionA invA "/a.js" envBase
    rfl rfl rfl (by decide)
  exact ⟨by decide, h.1, h.2.1, h.2.2.1 "ios" "/a.js"⟩

/-! ## C4: the inverse-dependency map of an update frame -/

/-- C4: every `update` frame carries the inverse-dependency map captured
when the session was created; a structural recompute replaces the
dependency list, module index and shallow-dependency caches of the
session but leaves the inverse-dependency map used for updates
unchanged. -/
theorem update_carries_connect_time_inverse_deps
    (platform entry filename : String) (snap0 : DepSnapshot) (env : CycleEnv)
    (b : HMRBundle)
    (hA : env.aliveA = true) (hdel : env.deleted = false)
    (hB : env.aliveB = true) (hC : env.aliveC = true)
    (hstruct : isShallowEquivalentChange (connectSession platform entry snap0).1
        filename env.freshDeps = false)
    (hD : env.aliveD = true)
    (hguard : (List.lookup filename env.rebuilt.shallowDependencies).isNone = false)
    (hbundle : env.bundleResult = BundleOutcome.built (some b))
    (hE : env.aliveE = true) (hne : b.isEmpty = false)
    (hF : env.aliveF = true) (hG : env.aliveG = true) :
    (changeCycle (connectSession platform entry snap0).1
        (connectSession platform entry snap0).2 filename env).messages =
        [HMRMessage.updateStart,
         HMRMessage.update b.modulesNamesAndCode snap0.inverseDependenciesCache
           b.sourceURLs b.sourceMappingURLs,
         HMRMessage.updateDone]
      ∧ (changeCycle (connectSession platform entry snap0).1
          (connectSession platform entry snap0).2 filename env).finalSession.inverseDependenciesCache
          = snap0.inverseDependenciesCache
      ∧ (changeCycle (connectSession platform entry snap0).1
          (connectSession platform entry snap0).2 filename env).finalSession.dependenciesCache
          = env.rebuilt.dependenciesCache
      ∧ (changeCycle (connectSession platform entry snap0).1
          (connectSession platform entry snap0).2 filename env).finalSession.dependenciesModulesCache
          = env.rebuilt.dependenciesModulesCache
      ∧ (changeCycle (connectSession platform entry snap0).1
          (connectSession platform entry snap0).2 filename env).finalSession.shallowDependencies
          = env.rebuilt.shallowDependencies := by
  unfold changeCycle
  simp only [connectSession] at hstruct ⊢
  simp [hA, hdel, hB, hC, hstruct, finishCycle, finishMiddle, cycleMessages,
    structuralInvalidate, hD, hguard, hbundle, hE, hne, hF, hG]

/-- Witness for C4: a structural change on the session of `snapA` sends
the update frame with the connect-time inverse-dependency map of `snapA`,
even though the session caches were replaced by those of `snapB`. -/
theorem update_carries_connect_time_inverse_deps_witness :
    isShallowEquivalentChange sessionA "/a.js" ["b", "c"] = false
      ∧ (changeCycle sessionA invA "/a.js" envC1).messages =
          [HMRMessage.updateStart,
           HMRMessage.update [("A", "codeA")] [("/b.js", ["/a.js"])]
             ["http://localhost:8081/a.js"] ["http://localhost:8081/a.js.map"],
           HMRMessage.updateDone]
      ∧ (changeCycle sessionA invA "/a.js" envC1).finalSession.inverseDependenciesCache
          = [("/b.js", ["/a.js"])]
      ∧ (changeCycle sessionA invA "/a.js" envC1).finalSession.shallowDependencies
          = [("/a.js", ["b", "c"]), ("/b.js", []), ("/c.js", [])] := by
  have h := update_carries_connect_time_inverse_deps "ios" "/a.js" "/a.js" snapA
    envC1 bundleA rfl rfl rfl rfl (by decide) rfl (by decide) rfl rfl rfl rfl rfl
  exact ⟨by decide, h.1.trans (by decide), h.2.1.trans (by decide),
    h.2.2.2.2.trans (by decide)⟩

/-! ## C5: protocol framing of a change cycle -/

/-- C5: with the connection open at the start and at the final send, the
frames of a cycle are `update-start` first, then at most one `update` or
`error` frame, then `update-done` last — also on the error and deletion
paths; with the connection closed at the start nothing is sent for the
cycle. -/
theorem update_channel_framing (sess : Session) (connectInv : InvDeps)
    (filename : String) (env : CycleEnv) :
    (env.aliveA = true → env.aliveG = true →
      (changeCycle sess connectInv filename env).messages =
          HMRMessage.updateStart ::
            (middleOf (changeCycle sess connectInv filename env).messages
              ++ [HMRMessage.updateDone])
        ∧ (middleOf (changeCycle sess connectInv filename env).messages).length ≤ 1
        ∧ (middleOf (changeCycle sess connectInv filename env).messages).all
            HMRMessage.isUpdateOrError = true)
      ∧ (env.aliveA = false →
          (changeCycle sess connectInv filename env).messages = []) := by
  constructor
  · intro hA hG
    unfold changeCycle finishCycle
    simp only [hA, Bool.true_eq_false, if_false]
    repeat' split
    all_goals first
      | exact framing_of_mid env [] hG (by simp) (by simp)
      | exact framing_of_mid env (finishMiddle _ connectInv filename env) hG
          (finishMiddle_shape _ connectInv filename env).1
          (finishMiddle_shape _ connectInv filename env).2
  · intro hA
    unfold changeCycle
    simp [hA]

/-- Witness for C5: the baseline cycle is framed as
`update-start · middle · update-done`. -/
theorem update_channel_framing_witness :
    envBase.aliveA = true ∧ envBase.aliveG = true
      ∧ (changeCycle sessionA invA "/a.js" envBase).messages =
          HMRMessage.updateStart ::
            (middleOf (changeCycle sessionA invA "/a.js" envBase).messages
              ++ [HMRMessage.updateDone]) := by
  have h := update_channel_framing sessionA invA "/a.js" envBase
  exact ⟨rfl, rfl, (h.1 rfl rfl).1⟩

/-! ## C6: error taxonomy and containment -/

/-- C6: a collaborator rejection inside a change cycle is caught at the
update-channel boundary and serialized: the recognized types
`TransformError`, `NotFoundError` and `UnableToResolveError` pass the
reported description, filename and line number through verbatim, while
any other error becomes an `InternalError` frame with the fixed generic
description; the cycle still ends with `update-done` and the session
survives unchanged — the error terminates neither the connection nor the
session. -/
theorem error_taxonomy_and_containment (sess : Session) (connectInv : InvDeps)
    (filename : String) (env : CycleEnv) (e : JSError)
    (hA : env.aliveA = true) (hdel : env.deleted = false)
    (hB : env.aliveB = true)
    (hcached : List.lookup filename sess.shallowDependencies = some env.freshDeps)
    (hD : env.aliveD = true) (hF : env.aliveF = true) (hG : env.aliveG = true)
    (hbundle : env.bundleResult = BundleOutcome.failed e) :
    (changeCycle sess connectInv filename env).messages =
        [HMRMessage.updateStart, HMRMessage.errorMsg (errorBody e),
         HMRMessage.updateDone]
      ∧ (changeCycle sess connectInv filename env).finalSession = sess
      ∧ ((e.etype = "TransformError" ∨ e.etype = "NotFoundError"
            ∨ e.etype = "UnableToResolveError") →
          errorBody e = { etype := e.etype, description := e.description,
                          filename := some e.filename,
                          lineNumber := some e.lineNumber })
      ∧ (¬(e.etype = "TransformError" ∨ e.etype = "NotFoundError"
            ∨ e.etype = "UnableToResolveError") →
          errorBody e = { etype := "InternalError",
                          description := internalErrorDescription,
                          filename := none, lineNumber := none }) := by
  have hsh : isShallowEquivalentChange sess filename env.freshDeps = true := by
    unfold isShallowEquivalentChange
    rw [hcached]
    exact arrayEquals_self _
  have hguard : (List.lookup filename sess.shallowDependencies).isNone = false := by
    rw [hcached]
    rfl
  refine ⟨?_, ?_, ?_, ?_⟩
  · unfold changeCycle
    simp [hA, hdel, hB, hsh, finishCycle, finishMiddle, cycleMessages,
      hD, hguard, hbundle, hF, hG]
  · unfold changeCycle
    simp [hA, hdel, hB, hsh, finishCycle]
  · intro hrec
    have hb : (e.etype == "TransformError" || e.etype == "NotFoundError"
        || e.etype == "UnableToResolveError") = true := by
      rcases hrec with h | h | h <;> simp [h]
    unfold errorBody
    rw [hb]
    simp
  · intro hrec
    have hb : (e.etype == "TransformError" || e.etype == "NotFoundError"
        || e.etype == "UnableToResolveError") = false := by
      rcases hx : (e.etype == "TransformError" || e.etype == "NotFoundError"
          || e.etype == "UnableToResolveError") with _ | _
      · rfl
      · exfalso
        apply hrec
        simp only [Bool.or_eq_true, beq_iff_eq] at hx
        tauto
    unfold errorBody
    rw [hb]
    simp

/-- Environment and error for the C6 witness: the bundle build rejects
with a `TransformError`. -/
def errC6 : JSError :=
  { etype := "TransformError", description := "unexpected token",
    filename := "/a.js", lineNumber := 3 }

/-- Cycle environment whose bundle stage rejects with `errC6`. -/
def envC6 : CycleEnv := { envBase with bundleResult := BundleOutcome.failed errC6 }

/-- Witness for C6: the rejected cycle sends the verbatim
`TransformError` frame between `update-start` and `update-done`, and the
session is unchanged. -/
theorem error_taxonomy_and_containment_witness :
    List.lookup "/a.js" sessionA.shallowDependencies = some ["b"]
      ∧ (changeCycle sessionA invA "/a.js" envC6).messages =
          [HMRMessage.updateStart,
           HMRMessage.errorMsg
             ⟨"TransformError", "unexpected token", some "/a.js", some 3⟩,
           HMRMessage.updateDone]
      ∧ (changeCycle sessionA invA "/a.js" envC6).finalSession = sessionA := by
  have h := error_taxonomy_and_containment sessionA invA "/a.js" envC6 errC6
    rfl rfl rfl (by decide) rfl rfl rfl rfl
  refine ⟨by decide, ?_, h.2.1⟩
  have h3 := h.2.2.1 (Or.inl rfl)
  rw [h.1, h3]
  rfl

/-! ## C7: host sanitization -/

/-- Modelled from the spec: the sanitization the spec words describe —
the listening address is replaced by the loopback hostname when it is a
wildcard address (the IPv4 wildcard `0.0.0.0` or the IPv6 wildcard `::`)
or empty.  Stated only for comparison with `sanitizeHost`, the embedding
of the source. -/
def specSanitizeHost (address : Option String) : String :=
  match address with
  | none => "localhost"
  | some a => if a = "" ∨ a = "0.0.0.0" ∨ a = "::" then "localhost" else a

/-- C7 counterexample: for the IPv4 wildcard listening address
`0.0.0.0` the code supplies `0.0.0.0` itself to the bundler, not the
loopback hostname that the claim requires for every wildcard address. -/
theorem host_sanitization_counterexample :
    sanitizeHost (some "0.0.0.0") = "0.0.0.0"
      ∧ specSanitizeHost (some "0.0.0.0") = "localhost"
      ∧ sanitizeHost (some "0.0.0.0") ≠ specSanitizeHost (some "0.0.0.0") := by
  decide

/-- C7 (amended): the host supplied to the bundler is the loopback
hostname exactly when the listening address is absent, empty or the IPv6
wildcard `::`; any other listening address — including the IPv4 wildcard
`0.0.0.0` — is passed through unchanged. -/
theorem host_sanitization_amended :
    sanitizeHost none = "localhost"
      ∧ sanitizeHost (some "") = "localhost"
      ∧ sanitizeHost (some "::") = "localhost"
      ∧ (∀ a : String, a ≠ "" → a ≠ "::" → sanitizeHost (some a) = a) := by
  refine ⟨rfl, by decide, by decide, ?_⟩
  intro a h1 h2
  unfold sanitizeHost
  simp [h1, h2]

/-- Witness for the amended C7 at the concrete address `127.0.0.1`. -/
theorem host_sanitization_amended_witness :
    ("127.0.0.1" : String) ≠ "" ∧ ("127.0.0.1" : String) ≠ "::"
      ∧ sanitizeHost (some "127.0.0.1") = "127.0.0.1" := by
  have h := host_sanitization_amended
  exact ⟨by decide, by decide, h.2.2.2 "127.0.0.1" (by decide) (by decide)⟩

/-! ## C8: broker single occupancy -/

/-- Broker state with a debugger (socket 10) and a client (socket 20)
connected. -/
def brokerS : BrokerState :=
  { debuggerSocket := some 10, clientSocket := some 20,
    debuggerHandlers := [10], clientHandlers := [20] }

/-- C8: at most one occupant per role — a debugger connecting while a
debugger is present is rejected immediately with the policy close code
and reason, leaving the whole state (and so the existing debugger) in
place; a client connecting while a client is present forcibly closes the
prior client with the policy close code and itself becomes the active
client, the debugger slot untouched. -/
theorem broker_single_occupancy (s : BrokerState) (sid : Nat)
    (urlD urlC : String) (d c : Nat)
    (hrd : roleOf urlD = Role.debuggerRole)
    (hrc : roleOf urlC = Role.clientRole)
    (hd : s.debuggerSocket = some d) (hc : s.clientSocket = some c) :
    brokerConnect s sid urlD =
        (s, [WSAction.close sid 1011 "Another debugger is already connected"])
      ∧ (brokerConnect s sid urlC).1.clientSocket = some sid
      ∧ (brokerConnect s sid urlC).1.debuggerSocket = s.debuggerSocket
      ∧ (brokerConnect s sid urlC).2 =
          [WSAction.close c 1011 "Another client connected"] := by
  refine ⟨?_, ?_, ?_, ?_⟩ <;> simp [brokerConnect, hrd, hrc, hd, hc]

/-- Witness for C8: with socket 10 as debugger and 20 as client, a new
socket 30 is rejected as debugger but supersedes as client. -/
theorem broker_single_occupancy_witness :
    roleOf "/debug?role=debugger" = Role.debuggerRole
      ∧ roleOf "/debug?role=client" = Role.clientRole
      ∧ brokerConnect brokerS 30 "/debug?role=debugger" =
          (brokerS, [WSAction.close 30 1011 "Another debugger is already connected"])
      ∧ (brokerConnect brokerS 30 "/debug?role=client").1.clientSocket = some 30
      ∧ (brokerConnect brokerS 30 "/debug?role=client").2 =
          [WSAction.close 20 1011 "Another client connected"] := by
  have h := broker_single_occupancy brokerS 30 "/debug?role=debugger"
    "/debug?role=client" 10 20 (by decide) (by decide) rfl rfl
  exact ⟨by decide, by decide, h.1, h.2.1, h.2.2.2⟩

/-! ## C9: the synthesized disconnect notification -/

/-- C9: a close or error event of the active client makes the broker
send the debugger — when one is connected — the synthesized
`\x7b"method":"$disconnected"\x7d` frame, and nothing when no debugger is
connected; a close event of the debugger sends no frame at all, so no
equivalent synthetic message reaches the client. -/
theorem client_disconnect_notification (s : BrokerState) (sid sid' : Nat)
    (hch : sid ∈ s.clientHandlers) (hnd : sid ∉ s.debuggerHandlers)
    (hdh : sid' ∈ s.debuggerHandlers) :
    (brokerSocketClosed s sid).2 = sendTo s.debuggerSocket disconnectedMessage
      ∧ (brokerSocketClosed s sid).1.clientSocket = none
      ∧ (∀ d, s.debuggerSocket = some d →
          (brokerSocketClosed s sid).2 = [WSAction.send d disconnectedMessage])
      ∧ (brokerSocketClosed s sid').2.filter WSAction.isSend = [] := by
  refine ⟨?_, ?_, ?_, ?_⟩
  · simp [brokerSocketClosed, hch, hnd]
  · simp [brokerSocketClosed, hch, hnd]
  · intro d hd
    simp [brokerSocketClosed, hch, hnd, hd, sendTo]
  · unfold brokerSocketClosed
    rw [if_pos hdh]
    cases s.clientSocket <;> simp [WSAction.isSend]

/-- Witness for C9: closing client 20 sends debugger 10 the disconnect
notification; closing debugger 10 sends nothing. -/
theorem client_disconnect_notification_witness :
    (20 ∈ brokerS.clientHandlers ∧ 20 ∉ brokerS.debuggerHandlers
      ∧ 10 ∈ brokerS.debuggerHandlers)
      ∧ (brokerSocketClosed brokerS 20).2 =
          [WSAction.send 10 disconnectedMessage]
      ∧ (brokerSocketClosed brokerS 10).2.filter WSAction.isSend = [] := by
  have h := client_disconnect_notification brokerS 20 10
    (by decide) (by decide) (by decide)
  exact ⟨⟨by decide, by decide, by decide⟩, h.2.2.1 10 rfl, h.2.2.2⟩

/-! ## C10: eviction silences the stale client -/

/-- C10: superseding a connected client nulls its callbacks before the
close — afterwards the evicted socket carries no client handlers, a
close or error event of it is a complete no-op (in particular no
disconnect notification is synthesized) and a message event of it
delivers nothing; and any close event that does synthesize the
disconnect notification comes from a socket whose client callbacks are
still assigned, i.e. the active, never-evicted client. -/
theorem client_eviction_silences_stale (s : BrokerState) (c sid : Nat)
    (url data : String)
    (hc : s.clientSocket = some c)
    (hrole : roleOf url = Role.clientRole)
    (hne : sid ≠ c)
    (hnd : c ∉ s.debuggerHandlers) :
    c ∉ (brokerConnect s sid url).1.clientHandlers
      ∧ brokerSocketClosed (brokerConnect s sid url).1 c =
          ((brokerConnect s sid url).1, [])
      ∧ brokerSocketMessage (brokerConnect s sid url).1 c data =
          ((brokerConnect s sid url).1, [])
      ∧ (∀ (t : BrokerState) (x d : Nat),
          WSAction.send d disconnectedMessage ∈ (brokerSocketClosed t x).2 →
            x ∈ t.clientHandlers) := by
  have hs1 : (brokerConnect s sid url).1 =
      { s with clientSocket := some sid,
               clientHandlers := sid :: s.clientHandlers.filter (fun x => x ≠ c) } := by
    simp [brokerConnect, hrole, hc]
  have hmem : c ∉ (brokerConnect s sid url).1.clientHandlers := by
    rw [hs1]
    intro hin
    rcases List.mem_cons.mp hin with h | h
    · exact hne (h.symm)
    · have := (List.mem_filter.mp h).2
      simp at this
  refine ⟨hmem, ?_, ?_, ?_⟩
  · have hnd1 : c ∉ (brokerConnect s sid url).1.debuggerHandlers := by
      rw [hs1]
      exact hnd
    simp [brokerSocketClosed, hmem, hnd1]
  · have hnd1 : c ∉ (brokerConnect s sid url).1.debuggerHandlers := by
      rw [hs1]
      exact hnd
    simp [brokerSocketMessage, hmem, hnd1]
  · intro t x d hsend
    unfold brokerSocketClosed at hsend
    split at hsend
    · rcases hcs : t.clientSocket with _ | c'
      · rw [hcs] at hsend
        simp at hsend
      · rw [hcs] at hsend
        simp at hsend
    · split at hsend
      · assumption
      · simp at hsend

/-- Witness for C10: after socket 30 supersedes client 20, every event
of socket 20 is a no-op. -/
theorem client_eviction_silences_stale_witness :
    (brokerS.clientSocket = some 20
      ∧ roleOf "/debug?role=client" = Role.clientRole
      ∧ (30 : Nat) ≠ 20 ∧ 20 ∉ brokerS.debuggerHandlers)
      ∧ 20 ∉ (brokerConnect brokerS 30 "/debug?role=client").1.clientHandlers
      ∧ brokerSocketClosed (brokerConnect brokerS 30 "/debug?role=client").1 20 =
          ((brokerConnect brokerS 30 "/debug?role=client").1, [])
      ∧ brokerSocketMessage
            (brokerConnect brokerS 30 "/debug?role=client").1 20 "ping" =
          ((brokerConnect brokerS 30 "/debug?role=client").1, []) := by
  have h := client_eviction_silences_stale brokerS 20 30 "/debug?role=client" "ping"
    rfl (by decide) (by decide) (by decide)
  exact ⟨⟨rfl, by decide, by decide, by decide⟩, h.1, h.2.1, h.2.2.1⟩
